import Mathlib

/-!
Shallow embedding of the risk-management and portfolio services of the
trading-signals-reader-ai-bot backend
(`backend/app/services/risk_management_service.py` and
`backend/app/services/portfolio_service.py`), with theorems checking the
specification's claims about position sizing, stop/target calculation,
trailing stops, portfolio risk assessment, rebalancing planning, exit
orders and Monte-Carlo VaR.

Numbers are modelled as rationals; Python `None` defaults as `Option`;
Python truthiness of an optional float (`if x:`) as `none`/`some 0` being
falsy; dict results of the form `{'success': ..., 'error': ...}` as
`PyResult`.  Places where CPython would raise (division by zero, caught by
the service's `try/except` and turned into an error result) are modelled
by explicit guards returning `.err`.
-/

namespace TradingBot

/-- Result of a service call: the Python dicts `{'success': True, ...}` /
`{'success': False, 'error': msg}`. -/
inductive PyResult (α : Type) where
  | ok : α → PyResult α
  | err : String → PyResult α
deriving DecidableEq, Repr

/-- Map over a successful result. -/
def PyResult.map (f : α → β) : PyResult α → PyResult β
  | .ok a => .ok (f a)
  | .err e => .err e

/-- A call succeeded. -/
def PyResult.isOk : PyResult α → Bool
  | .ok _ => true
  | .err _ => false

/-- Python truthiness of an optional float parameter: `None` and `0.0` are
falsy. -/
def optTruthy : Option ℚ → Bool
  | none => false
  | some x => x != 0

/-- The portfolio fields read by `RiskManagementService`. -/
structure Portfolio where
  total_value : ℚ
  available_balance : ℚ
deriving DecidableEq, Repr

/-- Result dict of a successful `calculate_position_size`. -/
structure PositionSizeResult where
  position_size : ℚ
  position_value : ℚ
  risk_amount : ℚ
  risk_percentage : ℚ
  position_percentage : ℚ
  required_capital : ℚ
  available_balance : ℚ
deriving DecidableEq, Repr

/-- `RiskManagementService.calculate_position_size`.  The portfolio lookup is
modelled by an `Option Portfolio` argument; `entry_price = 0` or
`total_value = 0` would raise `ZeroDivisionError` in the source, which the
surrounding `except` turns into an error result. -/
def calculate_position_size (portfolio? : Option Portfolio) (entry_price : ℚ)
    (stop_loss_price : Option ℚ) (risk_percentage : ℚ)
    (max_position_percentage : ℚ) : PyResult PositionSizeResult :=
  match portfolio? with
  | none => .err "Portfolio not found"
  | some portfolio =>
    let total_value := portfolio.total_value
    let available_balance := portfolio.available_balance
    let risk_amount := total_value * (risk_percentage / 100)
    if entry_price = 0 ∨ total_value = 0 then .err "float division by zero"
    else
      let position_size :=
        if optTruthy stop_loss_price then
          let price_risk := |entry_price - stop_loss_price.getD 0|
          if 0 < price_risk then risk_amount / price_risk else 0
        else
          -- default to 2% price risk if no stop loss
          risk_amount / (entry_price * (2 / 100))
      let max_position_value := total_value * (max_position_percentage / 100)
      let max_position_size := max_position_value / entry_price
      let position_size := min position_size max_position_size
      let required_capital := position_size * entry_price
      let position_size :=
        if available_balance < required_capital then
          available_balance / entry_price * (95 / 100)  -- leave 5% buffer
        else position_size
      let position_value := position_size * entry_price
      .ok { position_size := position_size
            position_value := position_value
            risk_amount := risk_amount
            risk_percentage := risk_amount / total_value * 100
            position_percentage := position_value / total_value * 100
            required_capital := required_capital
            available_balance := available_balance }

/-- Python `str.lower()` over the string's code points (the strings the
services compare are ASCII). -/
def pyLower (s : String) : String := ⟨s.data.map Char.toLower⟩

/-- Python `str.upper()` over the string's code points. -/
def pyUpper (s : String) : String := ⟨s.data.map Char.toUpper⟩

/-- A position type string is "long" when it lowercases to `"long"`; any
other string is treated as short (`position_type.lower() == 'long'`). -/
def isLong (position_type : String) : Bool :=
  pyLower position_type == "long"

/-- Result dict of a successful `calculate_stop_loss`. -/
structure StopLossResult where
  stop_loss_price : ℚ
  risk_amount : ℚ
  risk_percentage : ℚ
  method : String
deriving DecidableEq, Repr

/-- The `stop_loss_price` local of `RiskManagementService.calculate_stop_loss`
(`None` when no method branch fires): the `if/elif` chain on the method
string together with the truthiness checks on `atr_multiplier` and
`support_resistance`. -/
def stop_loss_candidate (entry_price : ℚ) (position_type : String)
    (method : String) (percentage : ℚ) (atr_multiplier : ℚ)
    (support_resistance : Option ℚ) : Option ℚ :=
  if method = "percentage" then
    some (if isLong position_type then entry_price * (1 - percentage / 100)
          else entry_price * (1 + percentage / 100))
  else if method = "atr" ∧ atr_multiplier ≠ 0 then
    -- default ATR estimate: 2% of entry
    let estimated_atr := entry_price * (2 / 100)
    some (if isLong position_type then
            entry_price - estimated_atr * atr_multiplier
          else entry_price + estimated_atr * atr_multiplier)
  else if method = "support_resistance" ∧ optTruthy support_resistance then
    some (support_resistance.getD 0)
  else none

/-- `RiskManagementService.calculate_stop_loss`: the final
`if stop_loss_price:` truthiness check means a computed stop of exactly 0
is rejected; `entry_price = 0` with a nonzero stop would raise
`ZeroDivisionError` in `risk_percentage`, caught as an error result. -/
def calculate_stop_loss (entry_price : ℚ) (position_type : String)
    (method : String) (percentage : ℚ) (atr_multiplier : ℚ)
    (support_resistance : Option ℚ) : PyResult StopLossResult :=
  match stop_loss_candidate entry_price position_type method percentage
      atr_multiplier support_resistance with
  | some stop_loss_price =>
    if stop_loss_price ≠ 0 then
      if entry_price = 0 then .err "float division by zero"
      else
        let risk_amount := |entry_price - stop_loss_price|
        .ok { stop_loss_price := stop_loss_price
              risk_amount := risk_amount
              risk_percentage := risk_amount / entry_price * 100
              method := method }
    else .err "Could not calculate stop loss"
  | none => .err "Could not calculate stop loss"

/-- Result dict of a successful `calculate_take_profit`. -/
structure TakeProfitResult where
  take_profit_price : ℚ
  profit_amount : ℚ
  profit_percentage : ℚ
  risk_reward_ratio : ℚ
deriving DecidableEq, Repr

/-- The `take_profit_price` local of
`RiskManagementService.calculate_take_profit`: `target_percentage` and
`stop_loss_price`/`risk_reward_ratio` are tested for truthiness as in the
source. -/
def take_profit_candidate (entry_price : ℚ) (position_type : String)
    (risk_reward_ratio : ℚ) (stop_loss_price : Option ℚ)
    (target_percentage : Option ℚ) : Option ℚ :=
  if optTruthy target_percentage then
    some (if isLong position_type then
            entry_price * (1 + target_percentage.getD 0 / 100)
          else entry_price * (1 - target_percentage.getD 0 / 100))
  else if optTruthy stop_loss_price ∧ risk_reward_ratio ≠ 0 then
    let risk_amount := |entry_price - stop_loss_price.getD 0|
    let reward_amount := risk_amount * risk_reward_ratio
    some (if isLong position_type then entry_price + reward_amount
          else entry_price - reward_amount)
  else none

/-- `RiskManagementService.calculate_take_profit`: the computed price is
itself tested for truthiness before the result dict is built;
`entry_price = 0` with a truthy price would raise `ZeroDivisionError` in
`profit_percentage`, caught as an error result. -/
def calculate_take_profit (entry_price : ℚ) (position_type : String)
    (risk_reward_ratio : ℚ) (stop_loss_price : Option ℚ)
    (target_percentage : Option ℚ) : PyResult TakeProfitResult :=
  match take_profit_candidate entry_price position_type risk_reward_ratio
      stop_loss_price target_percentage with
  | some take_profit_price =>
    if take_profit_price ≠ 0 then
      if entry_price = 0 then .err "float division by zero"
      else
        let profit_amount := |take_profit_price - entry_price|
        .ok { take_profit_price := take_profit_price
              profit_amount := profit_amount
              profit_percentage := profit_amount / entry_price * 100
              risk_reward_ratio := risk_reward_ratio }
    else .err "Could not calculate take profit"
  | none => .err "Could not calculate take profit"

/-- The position fields read and written by `RiskManagementService`
(`app.models` `Position` row as the service uses it; `position_type` and
`status` are the strings the service compares against, `exit_time` an
abstract timestamp). -/
structure Position where
  symbol : String
  exchange : String
  position_type : String
  status : String
  quantity : ℚ
  entry_price : ℚ
  current_price : ℚ
  stop_loss_price : Option ℚ
  take_profit_price : Option ℚ
  exit_price : Option ℚ
  exit_time : Option ℕ
deriving DecidableEq, Repr

/-- Trade row created by `_execute_exit_order`. -/
structure TradeRecord where
  symbol : String
  exchange : String
  trade_type : String
  quantity : ℚ
  price : ℚ
  status : String
  order_type : String
  notes : String
  timestamp : ℕ
deriving DecidableEq, Repr

/-- `RiskManagementService._calculate_trailing_stop_loss`.  Faithful to the
source's branch ORDER: for a long position
`if profit_pct > 10: return entry*1.02 elif profit_pct > 20: return
entry*1.10` — the second branch is unreachable because any profit above 20%
is also above 10%.  (`entry_price = 0` raises in the source and returns
`None` via the `except` handler; here `profit_pct` evaluates to 0 by
`x / 0 = 0` and the function likewise returns `none`.) -/
def _calculate_trailing_stop_loss (position : Position) : Option ℚ :=
  let current_price := position.current_price
  let entry_price := position.entry_price
  if isLong position.position_type then
    let profit_pct := (current_price - entry_price) / entry_price * 100
    if 10 < profit_pct then
      -- if profit > 10%, trail stop to break-even + 2%
      some (entry_price * (102 / 100))
    else if 20 < profit_pct then
      -- if profit > 20%, trail stop to 10% profit
      some (entry_price * (110 / 100))
    else none
  else
    let profit_pct := (entry_price - current_price) / entry_price * 100
    if 10 < profit_pct then some (entry_price * (98 / 100))
    else if 20 < profit_pct then some (entry_price * (90 / 100))
    else none

/-- `RiskManagementService._execute_exit_order`: close the whole position
(status `'closed'`, exit price/time recorded) when the exit quantity covers
the remaining quantity, otherwise only decrement the quantity; either way
append a completed trade row.  `now` stands for `datetime.utcnow()`. -/
def _execute_exit_order (position : Position) (quantity : ℚ)
    (order_type : String) (reason : String) (now : ℕ) :
    Position × TradeRecord :=
  let current_price := position.current_price
  let position' :=
    if position.quantity ≤ quantity then
      { position with status := "closed"
                      exit_price := some current_price
                      exit_time := some now }
    else
      { position with quantity := position.quantity - quantity }
  let trade : TradeRecord :=
    { symbol := position.symbol
      exchange := position.exchange
      trade_type := if position.position_type = "long" then "sell" else "buy"
      quantity := quantity
      price := current_price
      status := "completed"
      order_type := order_type
      notes := reason
      timestamp := now }
  (position', trade)

/-- `RiskManagementService.execute_risk_action` restricted to its effect on
the position row and the trade log (the position/portfolio/user lookups are
modelled by the `Option Position` argument; notifications have no effect on
either).  For `'update_stop_loss'` the freshly computed trailing stop
OVERWRITES the stored stop-loss price whenever the computation yields a
value; when it yields `None` the action fails and nothing is committed. -/
def execute_risk_action (position? : Option Position) (action : String)
    (percentage : ℚ) (now : ℕ) : PyResult (Position × List TradeRecord) :=
  match position? with
  | none => .err "Position not found"
  | some position =>
    let quantity_to_close := position.quantity * (percentage / 100)
    if action = "execute_stop_loss" then
      let (p, t) := _execute_exit_order position quantity_to_close "market"
        "Stop loss triggered" now
      .ok (p, [t])
    else if action = "execute_take_profit" then
      let (p, t) := _execute_exit_order position quantity_to_close "market"
        "Take profit executed" now
      .ok (p, [t])
    else if action = "reduce_position" then
      let (p, t) := _execute_exit_order position quantity_to_close "market"
        ("Position reduced by " ++ toString percentage ++ "%") now
      .ok (p, [t])
    else if action = "update_stop_loss" then
      match _calculate_trailing_stop_loss position with
      | some new_stop_loss =>
        .ok ({ position with stop_loss_price := some new_stop_loss }, [])
      | none => .err "Could not calculate new stop loss"
    else .err ("Unknown action: " ++ action)

/-- Warnings produced by `check_portfolio_risk`, modelled structurally (the
source formats them as strings; the numeric payload is carried instead of
its decimal rendering). -/
inductive RiskWarning where
  | largePosition (symbol : String) (position_percentage : ℚ)
  | totalRiskExceedsLimit (total_risk limit : ℚ)
  | highSectorConcentration (sector : String) (concentration : ℚ)
deriving DecidableEq, Repr

/-- Recommendations produced by `check_portfolio_risk`, modelled
structurally. -/
inductive RiskRecommendation where
  | reducePositionSize (symbol : String)
  | reduceSizesOrTightenStops
  | diversifyAwayFrom (sector : String)
deriving DecidableEq, Repr

/-- The hard-coded symbol→sector grouping of
`_calculate_sector_concentration`: base symbol is the part before `'/'`
(or the first three characters), uppercased, then matched against the
three symbol lists. -/
def sectorOf (symbol : String) : String :=
  -- `symbol.split('/')[0] if '/' in symbol else symbol[:3]`, on code points
  let symbol_base : String :=
    if symbol.data.contains '/' then ⟨symbol.data.takeWhile (· ≠ '/')⟩
    else ⟨symbol.data.take 3⟩
  let b := pyUpper symbol_base
  if b ∈ ["BTC", "ETH", "ADA", "DOT", "LINK", "UNI"] then "crypto"
  else if b ∈ ["EUR", "GBP", "JPY", "AUD", "CAD", "CHF"] then "forex"
  else if b ∈ ["GOLD", "SILVER", "OIL", "GAS"] then "commodities"
  else "other"

/-- Position value as `check_portfolio_risk` computes it. -/
def position_value (p : Position) : ℚ :=
  p.quantity * p.current_price

/-- `RiskManagementService._calculate_sector_concentration`: total position
value per sector (dict iteration order crypto, forex, commodities, other),
kept only when positive, as a percentage of portfolio value. -/
def _calculate_sector_concentration (positions : List Position)
    (total_value : ℚ) : List (String × ℚ) :=
  (["crypto", "forex", "commodities", "other"].map (fun sector =>
      (sector,
        ((positions.filter (fun p => sectorOf p.symbol = sector)).map
            position_value).sum))).filterMap (fun sv =>
    if 0 < sv.2 then some (sv.1, sv.2 / total_value * 100) else none)

/-- Per-position risk estimate of `check_portfolio_risk`: stop distance
times quantity over portfolio value when a stop-loss price is set (truthy),
otherwise 2% of the position's share of the portfolio. -/
def position_risk (total_value : ℚ) (p : Position) : ℚ :=
  let position_percentage := position_value p / total_value * 100
  if optTruthy p.stop_loss_price then
    |p.current_price - p.stop_loss_price.getD 0| * p.quantity / total_value * 100
  else
    position_percentage * (2 / 100)

/-- Result dict of a successful `check_portfolio_risk`.  (On the
no-active-positions early return the source's dict carries only
`total_risk`, `risk_level`, `warnings` and `recommendations`; the remaining
fields are modelled as empty lists there.) -/
structure RiskReport where
  total_risk : ℚ
  risk_level : String
  position_risks : List (String × ℚ × ℚ)
  sector_concentration : List (String × ℚ)
  warnings : List RiskWarning
  recommendations : List RiskRecommendation
deriving DecidableEq, Repr

/-- `RiskManagementService.check_portfolio_risk`.  `positions` is the
portfolio's position list; the service keeps those with status
`'active'`.  With no active positions it returns the fixed low-risk
result without reading the portfolio value; otherwise `total_value = 0`
would raise (caught as an error result), and the report aggregates
per-position risks, size warnings, the total-risk warning and sector
concentration warnings, with
`risk_level = low (< 5) / medium (< 10) / high`.
(`max_correlation_risk` is accepted and never read, as in the source.) -/
def check_portfolio_risk (portfolio? : Option Portfolio)
    (positions : List Position) (max_portfolio_risk : ℚ)
    (max_correlation_risk : ℚ) (max_sector_concentration : ℚ) :
    PyResult RiskReport :=
  match portfolio? with
  | none => .err "Portfolio not found"
  | some portfolio =>
    let active := positions.filter (fun p => p.status = "active")
    if active.isEmpty then
      .ok { total_risk := 0, risk_level := "low", position_risks := [],
            sector_concentration := [], warnings := [], recommendations := [] }
    else
      let total_value := portfolio.total_value
      if total_value = 0 then .err "float division by zero"
      else
        let total_risk := (active.map (position_risk total_value)).sum
        let position_risks := active.map (fun p =>
          (p.symbol, position_risk total_value p,
            position_value p / total_value * 100))
        let large := active.filter (fun p =>
          15 < position_value p / total_value * 100)
        let sector_concentration :=
          _calculate_sector_concentration active total_value
        let flagged_sectors := sector_concentration.filter (fun sc =>
          max_sector_concentration < sc.2)
        let warnings :=
          large.map (fun p => RiskWarning.largePosition p.symbol
              (position_value p / total_value * 100)) ++
            (if max_portfolio_risk < total_risk then
              [RiskWarning.totalRiskExceedsLimit total_risk max_portfolio_risk]
            else []) ++
            flagged_sectors.map (fun sc =>
              RiskWarning.highSectorConcentration sc.1 sc.2)
        let recommendations :=
          large.map (fun p => RiskRecommendation.reducePositionSize p.symbol) ++
            (if max_portfolio_risk < total_risk then
              [RiskRecommendation.reduceSizesOrTightenStops]
            else []) ++
            flagged_sectors.map (fun sc =>
              RiskRecommendation.diversifyAwayFrom sc.1)
        let risk_level :=
          if total_risk < 5 then "low"
          else if total_risk < 10 then "medium"
          else "high"
        .ok { total_risk := total_risk, risk_level := risk_level,
              position_risks := position_risks,
              sector_concentration := sector_concentration,
              warnings := warnings, recommendations := recommendations }

/-- A holding row of `get_portfolio_summary` as `execute_rebalancing` reads
it. -/
structure Holding where
  symbol : String
  exchange : String
  current_value : ℚ
  current_price : ℚ
deriving DecidableEq, Repr

/-- A proposed rebalancing trade (`rebalancing_trades` entry). -/
structure RebalanceTrade where
  symbol : String
  exchange : String
  trade_type : String
  quantity : ℚ
  current_price : ℚ
  value_difference : ℚ
deriving DecidableEq, Repr

/-- The trade-generation loop of `PortfolioService.execute_rebalancing`:
per holding, `value_difference = total_value*target_weight −
current_value`; a trade is emitted only when `|value_difference| > 10`
(minimum trade value), with direction from the sign of
`quantity_difference = value_difference / current_price` and quantity
`|quantity_difference|`.  A zero `current_price` on an emitted trade would
raise `ZeroDivisionError`, caught by the service's `except` → error
result.  (The source also computes an unused `current_weight`.) -/
def rebalancing_trades : List Holding → ℚ → List (String × ℚ) →
    PyResult (List RebalanceTrade)
  | [], _, _ => .ok []
  | holding :: rest, total_value, target_allocation =>
    let target_weight := ((target_allocation.lookup holding.symbol).getD 0)
    let target_value := total_value * target_weight
    let value_difference := target_value - holding.current_value
    if 10 < |value_difference| then
      if holding.current_price = 0 then .err "float division by zero"
      else
        let quantity_difference := value_difference / holding.current_price
        let trade : RebalanceTrade :=
          { symbol := holding.symbol
            exchange := holding.exchange
            trade_type := if 0 < quantity_difference then "BUY" else "SELL"
            quantity := |quantity_difference|
            current_price := holding.current_price
            value_difference := value_difference }
        (rebalancing_trades rest total_value target_allocation).map
          (fun trades => trade :: trades)
    else rebalancing_trades rest total_value target_allocation

/-- `PortfolioService.execute_rebalancing`: no trades when the threshold
check reports no rebalancing needed; error when the portfolio summary
fails; otherwise the trades generated from the summary's holdings against
the target allocation. -/
def execute_rebalancing (rebalancing_needed : Bool) (summary_ok : Bool)
    (holdings : List Holding) (total_value : ℚ)
    (target_allocation : List (String × ℚ)) :
    PyResult (List RebalanceTrade) :=
  if ¬rebalancing_needed then .ok []
  else if ¬summary_ok then .err "Could not get portfolio summary"
  else rebalancing_trades holdings total_value target_allocation

/-- Portfolio weight of a position in `calculate_portfolio_var`. -/
def position_weight (total_value : ℚ) (p : Position) : ℚ :=
  position_value p / total_value

/-- One simulated portfolio daily return of `calculate_portfolio_var`:
the weighted sum, over the active positions in order, of one fresh
per-position draw each (the source draws `np.random.normal(0, 0.02)`;
the stream of draws is an input here, trial-major). -/
def simulated_return (positions : List Position) (total_value : ℚ)
    (draws : ℕ → ℚ) (trial : ℕ) : ℚ :=
  (positions.enum.map (fun jp =>
    position_weight total_value jp.2 * draws (trial * positions.length + jp.1))).sum

/-- The 1000 simulated portfolio returns of `calculate_portfolio_var`. -/
def simulated_returns (positions : List Position) (total_value : ℚ)
    (draws : ℕ → ℚ) : List ℚ :=
  (List.range 1000).map (simulated_return positions total_value draws)

/-- `np.percentile(xs, q)` with the default linear interpolation: with the
values sorted ascending, the virtual index is `(n−1)·q/100`; the result
interpolates between the two neighbouring order statistics. -/
def np_percentile (xs : List ℚ) (q : ℚ) : ℚ :=
  let sorted := xs.mergeSort (· ≤ ·)
  let pos : ℚ := (sorted.length - 1 : ℤ) * q / 100
  let lo := ⌊pos⌋
  let frac := pos - lo
  let a := sorted.getD lo.toNat 0
  let b := sorted.getD (lo.toNat + 1) 0
  a + frac * (b - a)

/-- `np.mean` of a list (0 on the empty list never arises in use). -/
def np_mean (xs : List ℚ) : ℚ := xs.sum / xs.length

/-- Result dict of `calculate_portfolio_var` in the non-degenerate case. -/
structure VaRReport where
  var_percentage : ℚ
  var_amount : ℚ
  expected_shortfall_percentage : ℚ
  expected_shortfall_amount : ℚ
  confidence_level : ℚ
  time_horizon_days : ℕ
  portfolio_value : ℚ
deriving DecidableEq, Repr

/-- Outcome of `calculate_portfolio_var`: the source returns a distinct
`{'var': 0, 'expected_shortfall': 0}` dict when there are no active
positions. -/
inductive VaROutcome where
  | noPositions
  | report (r : VaRReport)
  | failure (msg : String)
deriving DecidableEq, Repr

/-- `RiskManagementService.calculate_portfolio_var`: 1000 Monte-Carlo
trials, each trial's portfolio return being the weighted sum of one draw
per active position; `var` is the `(1−confidence)·100` percentile of the
trial returns, `expected_shortfall` the mean of the returns at or below
`var` (or `var` itself if none); both are reported in absolute value, as a
fraction of and in units of portfolio value. -/
def calculate_portfolio_var (portfolio? : Option Portfolio)
    (positions : List Position) (draws : ℕ → ℚ) (confidence_level : ℚ)
    (time_horizon : ℕ) : VaROutcome :=
  match portfolio? with
  | none => .failure "Portfolio not found"
  | some portfolio =>
    let active := positions.filter (fun p => p.status = "active")
    if active.isEmpty then .noPositions
    else
      let total_value := portfolio.total_value
      if total_value = 0 then .failure "float division by zero"
      else
        let portfolio_returns := simulated_returns active total_value draws
        let var_percentile := (1 - confidence_level) * 100
        let var := np_percentile portfolio_returns var_percentile
        let var_amount := |var * total_value|
        let tail_losses := portfolio_returns.filter (fun r => r ≤ var)
        let expected_shortfall :=
          if tail_losses.isEmpty then var else np_mean tail_losses
        let es_amount := |expected_shortfall * total_value|
        .report { var_percentage := |var| * 100
                  var_amount := var_amount
                  expected_shortfall_percentage := |expected_shortfall| * 100
                  expected_shortfall_amount := es_amount
                  confidence_level := confidence_level
                  time_horizon_days := time_horizon
                  portfolio_value := total_value }

/-- A concrete active long position used to instantiate several theorems. -/
def samplePosition : Position :=
  { symbol := "BTC/USDT", exchange := "binance", position_type := "long",
    status := "active", quantity := 1, entry_price := 100,
    current_price := 125, stop_loss_price := none,
    take_profit_price := none, exit_price := none, exit_time := none }

/-!  ## Theorems  -/

unseal Rat.add Rat.mul Rat.inv Rat.sub in
/-- C1.  The claim says a Long position at entry 100 / current 125 (25%
gain) gets trailing stop 110 = entry·1.10.  The code's
`if profit_pct > 10 ... elif profit_pct > 20 ...` tests the tiers in the
wrong order, so the 20%-tier branch is dead and the function returns
102 = entry·1.02 instead; after a drop to 105 (5% gain) it returns `None`,
leaving any stored stop unchanged. -/
theorem trailing_stop_at_25pct_gain_returns_102_not_110 :
    _calculate_trailing_stop_loss samplePosition = some 102 ∧
      (102 : ℚ) ≠ 110 ∧
      _calculate_trailing_stop_loss { samplePosition with current_price := 105 }
        = none := by decide

unseal Rat.add Rat.mul Rat.inv Rat.sub in
/-- C2, counterexample.  A long position with entry 100, current 115 and a
previously stored stop of 110: `execute_risk_action 'update_stop_loss'`
overwrites the stop with the freshly computed trailing value 102, which is
strictly below the prior stop 110 — the update is not monotonic. -/
theorem update_stop_loss_loosens_prior_stop :
    (execute_risk_action
        (some { samplePosition with current_price := 115,
                                    stop_loss_price := some 110 })
        "update_stop_loss" 100 0).map (fun r => r.1.stop_loss_price)
      = .ok (some 102) ∧ (102 : ℚ) < 110 := by decide

/-- The stop-loss price after `execute_risk_action 'update_stop_loss'`:
the updated row on success, the untouched row on failure (nothing is
committed on the error path). -/
def stop_after_update (p : Position) (percentage : ℚ) (now : ℕ) : Option ℚ :=
  match execute_risk_action (some p) "update_stop_loss" percentage now with
  | .ok r => r.1.stop_loss_price
  | .err _ => p.stop_loss_price

/-- For a long position the trailing calculation can only produce
entry·1.02 (the 20% tier is unreachable). -/
theorem trailing_stop_long_value (p : Position) (s : ℚ)
    (hl : isLong p.position_type = true)
    (hs : _calculate_trailing_stop_loss p = some s) :
    s = p.entry_price * (102 / 100) := by
  unfold _calculate_trailing_stop_loss at hs
  rw [hl] at hs
  simp only [if_true] at hs
  split_ifs at hs with h1 h2
  · injection hs with h
    exact h.symm
  · exact absurd (lt_trans (by norm_num) h2) h1

/-- For a short position the trailing calculation can only produce
entry·0.98 (the 20% tier is unreachable). -/
theorem trailing_stop_short_value (p : Position) (s : ℚ)
    (hl : isLong p.position_type = false)
    (hs : _calculate_trailing_stop_loss p = some s) :
    s = p.entry_price * (98 / 100) := by
  unfold _calculate_trailing_stop_loss at hs
  rw [hl] at hs
  simp only [Bool.false_eq_true, if_false] at hs
  split_ifs at hs with h1 h2
  · injection hs with h
    exact h.symm
  · exact absurd (lt_trans (by norm_num) h2) h1

/-- C2, amended.  `update_stop_loss` overwrites the stored stop with the
freshly computed trailing value whenever one exists, even when that is
lower than the prior stop (counterexample above); what does hold is that a
stop previously set by the trailing ladder itself is stable: for a long
position whose stop is entry·1.02 (resp. a short with entry·0.98),
re-running the update at any later price and any percentage either
rewrites the same value or fails leaving the row untouched — the stop
never moves. -/
theorem update_stop_loss_ladder_stop_stable (p : Position) (percentage : ℚ)
    (now : ℕ) :
    (isLong p.position_type = true →
      p.stop_loss_price = some (p.entry_price * (102 / 100)) →
      stop_after_update p percentage now
        = some (p.entry_price * (102 / 100))) ∧
    (isLong p.position_type = false →
      p.stop_loss_price = some (p.entry_price * (98 / 100)) →
      stop_after_update p percentage now
        = some (p.entry_price * (98 / 100))) := by
  unfold stop_after_update execute_risk_action
  constructor <;> intro hl hs
  · rcases h : _calculate_trailing_stop_loss p with _ | s
    · simp [h, hs]
    · simp [h, trailing_stop_long_value p s hl h]
  · rcases h : _calculate_trailing_stop_loss p with _ | s
    · simp [h, hs]
    · simp [h, trailing_stop_short_value p s hl h]

unseal Rat.add Rat.mul Rat.inv Rat.sub in
/-- Witness for C2's amended theorem: a long position whose stop sits at
entry·1.02 = 102 keeps exactly that stop across a re-run, and a short
position whose stop sits at entry·0.98 = 98 likewise. -/
theorem update_stop_loss_ladder_stop_stable_witness :
    stop_after_update { samplePosition with stop_loss_price := some 102 }
        100 0 = some ((100 : ℚ) * (102 / 100)) ∧
      stop_after_update
          { samplePosition with
              position_type := "short", current_price := 80,
              stop_loss_price := some 98 } 100 0
        = some ((100 : ℚ) * (98 / 100)) :=
  ⟨(update_stop_loss_ladder_stop_stable
        { samplePosition with stop_loss_price := some 102 } 100 0).1
      (by decide) (by decide),
   (update_stop_loss_ladder_stop_stable
        { samplePosition with position_type := "short", current_price := 80,
                              stop_loss_price := some 98 } 100 0).2
      (by decide) (by decide)⟩

unseal Rat.add Rat.mul Rat.inv Rat.sub in
/-- C3, counterexample.  Portfolio value 1000, available balance 100,
entry price 1, no stop, risk 2%, max position 10% — all inputs positive —
yet the returned position value is 100, the full available balance:
the bound positionValue ≤ availableBalance·0.95 = 95 fails (the 95% buffer
is applied only when the size bound strictly exceeds the balance, and here
required capital exactly equals the balance). -/
theorem position_size_can_exceed_balance_buffer :
    (0 : ℚ) < 1 ∧ (0 : ℚ) < 1000 ∧ (0 : ℚ) < 100 ∧
      (calculate_position_size (some ⟨1000, 100⟩) 1 none 2 10).map
          PositionSizeResult.position_value = .ok 100 ∧
      ¬ ((100 : ℚ) ≤ 100 * (95 / 100)) := by decide

/-- C3, amended.  For positive entry price, portfolio value and available
balance, the sizing result exists and its position value is bounded by the
full available balance (not by availableBalance·0.95, see the
counterexample) and by portfolioValue·maxPositionPct/100. -/
theorem calculate_position_size_bounded (pf : Portfolio) (entry_price : ℚ)
    (stop_loss_price : Option ℚ)
    (risk_percentage max_position_percentage : ℚ)
    (hentry : 0 < entry_price) (htv : 0 < pf.total_value)
    (hbal : 0 < pf.available_balance) :
    ∃ r, calculate_position_size (some pf) entry_price stop_loss_price
        risk_percentage max_position_percentage = .ok r ∧
      r.position_value ≤ pf.available_balance ∧
      r.position_value ≤ pf.total_value * (max_position_percentage / 100) := by
  have h0 : ¬ (entry_price = 0 ∨ pf.total_value = 0) := by
    push_neg
    exact ⟨hentry.ne', htv.ne'⟩
  simp only [calculate_position_size, h0, if_false]
  refine ⟨_, rfl, ?_⟩
  set s0 : ℚ :=
    (if optTruthy stop_loss_price then
      if 0 < |entry_price - stop_loss_price.getD 0| then
        pf.total_value * (risk_percentage / 100) /
          |entry_price - stop_loss_price.getD 0|
      else 0
    else pf.total_value * (risk_percentage / 100) / (entry_price * (2 / 100)))
    with hs0
  set mps : ℚ :=
    pf.total_value * (max_position_percentage / 100) / entry_price with hmps
  have hmpse : mps * entry_price
      = pf.total_value * (max_position_percentage / 100) :=
    div_mul_cancel₀ _ hentry.ne'
  have hminle : min s0 mps * entry_price
      ≤ pf.total_value * (max_position_percentage / 100) := by
    calc min s0 mps * entry_price ≤ mps * entry_price :=
          mul_le_mul_of_nonneg_right (min_le_right _ _) hentry.le
      _ = _ := hmpse
  split_ifs with hreq
  · have hb : pf.available_balance / entry_price * (95 / 100) * entry_price
        = pf.available_balance * (95 / 100) := by
      field_simp
      ring
    constructor
    · rw [hb]
      exact mul_le_of_le_one_right hbal.le (by norm_num)
    · rw [hb]
      have h1 : pf.available_balance * (95 / 100) ≤ pf.available_balance :=
        mul_le_of_le_one_right hbal.le (by norm_num)
      exact h1.trans (hreq.le.trans hminle)
  · exact ⟨not_lt.mp hreq, hminle⟩

unseal Rat.add Rat.mul Rat.inv Rat.sub in
/-- Witness for C3's amended theorem at portfolio (1000, 100), entry 1,
no stop, risk 2%, max 10%. -/
theorem calculate_position_size_bounded_witness :
    ∃ r, calculate_position_size (some ⟨1000, 100⟩) 1 none 2 10 = .ok r ∧
      r.position_value ≤ (100 : ℚ) ∧
      r.position_value ≤ (1000 : ℚ) * (10 / 100) :=
  calculate_position_size_bounded ⟨1000, 100⟩ 1 none 2 10 (by norm_num)
    (by norm_num) (by norm_num)

unseal Rat.add Rat.mul Rat.inv Rat.sub in
/-- C4, counterexample.  With available balance −10 ≤ 0 (portfolio value
100, entry price 1) `calculate_position_size` does not fail at all — there
is no `InsufficientCapital` error path in the code; it returns a
successful result (with a nonpositive size). -/
theorem position_size_no_insufficient_capital_error :
    ((-10 : ℚ) ≤ 0) ∧
      (calculate_position_size (some ⟨100, -10⟩) 1 none 2 10).isOk = true ∧
      (calculate_position_size (some ⟨100, -10⟩) 1 none 2 10).map
          PositionSizeResult.position_size = .ok (-(19 / 2)) := by decide

/-- C4, amended.  `calculate_position_size` never fails with an
insufficient-capital error: for every found portfolio with nonzero total
value and nonzero entry price it returns a successful sizing result,
whatever the available balance (including ≤ 0). -/
theorem calculate_position_size_always_succeeds (pf : Portfolio)
    (entry_price : ℚ) (stop_loss_price : Option ℚ)
    (risk_percentage max_position_percentage : ℚ)
    (hentry : entry_price ≠ 0) (htv : pf.total_value ≠ 0) :
    (calculate_position_size (some pf) entry_price stop_loss_price
        risk_percentage max_position_percentage).isOk = true := by
  have h0 : ¬ (entry_price = 0 ∨ pf.total_value = 0) := by
    push_neg
    exact ⟨hentry, htv⟩
  simp only [calculate_position_size, h0, if_false, PyResult.isOk]

/-- Witness for C4's amended theorem: succeeds at portfolio (100, −10)
with a nonpositive available balance. -/
theorem calculate_position_size_always_succeeds_witness :
    (calculate_position_size (some ⟨100, -10⟩) 1 none 2 10).isOk = true :=
  calculate_position_size_always_succeeds ⟨100, -10⟩ 1 none 2 10
    (by norm_num) (by norm_num)

/-- Inversion of a successful `calculate_stop_loss`: whatever the method,
the risk amount is the distance from entry to the returned stop, the stop
is truthy, and the entry price is nonzero. -/
theorem calculate_stop_loss_ok_inv {entry_price : ℚ}
    {position_type method : String} {percentage atr_multiplier : ℚ}
    {support_resistance : Option ℚ} {sl : StopLossResult}
    (h : calculate_stop_loss entry_price position_type method percentage
      atr_multiplier support_resistance = .ok sl) :
    sl.risk_amount = |entry_price - sl.stop_loss_price| ∧
      sl.stop_loss_price ≠ 0 ∧ entry_price ≠ 0 := by
  unfold calculate_stop_loss at h
  rcases hc : stop_loss_candidate entry_price position_type method percentage
      atr_multiplier support_resistance with _ | stop
  all_goals rw [hc] at h
  all_goals dsimp only [] at h
  · exact PyResult.noConfusion h
  · by_cases h1 : stop ≠ 0
    · rw [if_pos h1] at h
      by_cases h2 : entry_price = 0
      · rw [if_pos h2] at h
        exact PyResult.noConfusion h
      · rw [if_neg h2] at h
        injection h with h'
        subst h'
        exact ⟨rfl, h1, h2⟩
    · rw [if_neg h1] at h
      exact PyResult.noConfusion h

/-- C5.  For every stop-loss method, entry price and side: feeding the
stop produced by `calculate_stop_loss` into `calculate_take_profit` with a
risk/reward ratio R > 0 and no target percentage yields (whenever a take
profit is returned) a profit amount equal to exactly R times the stop's
risk amount. -/
theorem take_profit_reward_matches_risk {entry_price : ℚ}
    {position_type method : String} {percentage atr_multiplier : ℚ}
    {support_resistance : Option ℚ} {risk_reward_ratio : ℚ}
    {sl : StopLossResult} {tp : TakeProfitResult}
    (hsl : calculate_stop_loss entry_price position_type method percentage
      atr_multiplier support_resistance = .ok sl)
    (hR : 0 < risk_reward_ratio)
    (htp : calculate_take_profit entry_price position_type risk_reward_ratio
      (some sl.stop_loss_price) none = .ok tp) :
    tp.profit_amount = sl.risk_amount * risk_reward_ratio := by
  obtain ⟨hra, hs0, -⟩ := calculate_stop_loss_ok_inv hsl
  have habs : |(|entry_price - sl.stop_loss_price|) * risk_reward_ratio|
      = |entry_price - sl.stop_loss_price| * risk_reward_ratio := by
    rw [abs_mul, abs_abs, abs_of_pos hR]
  have hc : take_profit_candidate entry_price position_type risk_reward_ratio
      (some sl.stop_loss_price) none =
        some (if isLong position_type then
                entry_price + |entry_price - sl.stop_loss_price| * risk_reward_ratio
              else
                entry_price - |entry_price - sl.stop_loss_price| * risk_reward_ratio) := by
    simp [take_profit_candidate, optTruthy, hs0, hR.ne']
  unfold calculate_take_profit at htp
  rw [hc] at htp
  dsimp only [] at htp
  set Y := |entry_price - sl.stop_loss_price| * risk_reward_ratio with hY
  have hdiff : (if isLong position_type = true then entry_price + Y
        else entry_price - Y) - entry_price
      = if isLong position_type = true then Y else -Y := by
    split_ifs <;> ring
  by_cases h1 : (if isLong position_type = true then entry_price + Y
      else entry_price - Y) ≠ 0
  · rw [if_pos h1] at htp
    by_cases h2 : entry_price = 0
    · rw [if_pos h2] at htp
      exact PyResult.noConfusion htp
    · rw [if_neg h2] at htp
      injection htp with h'
      subst h'
      dsimp only []
      rw [hdiff, hra]
      split_ifs
      · exact habs
      · rw [abs_neg]
        exact habs
  · rw [if_neg h1] at htp
    exact PyResult.noConfusion htp

unseal Rat.add Rat.mul Rat.inv Rat.sub in
/-- Witness for C5 with the percentage method: entry 100, long, 2% stop →
stop 98, risk 2; ratio 3 → take profit 106, profit 6 = 2·3. -/
theorem take_profit_reward_matches_risk_witness :
    (⟨106, 6, 6, 3⟩ : TakeProfitResult).profit_amount
      = (⟨98, 2, 2, "percentage"⟩ : StopLossResult).risk_amount * 3 := by
  have h1 : calculate_stop_loss 100 "long" "percentage" 2 2 none
      = .ok ⟨98, 2, 2, "percentage"⟩ := by decide
  have h2 : calculate_take_profit 100 "long" 3
      (some (⟨98, 2, 2, "percentage"⟩ : StopLossResult).stop_loss_price) none
      = .ok ⟨106, 6, 6, 3⟩ := by decide
  exact take_profit_reward_matches_risk h1 (by norm_num) h2

/-- The position fields that `check_portfolio_risk` reads to compute
`total_risk` and `risk_level`: status (for the active filter), quantity,
current price and stop-loss price. -/
def riskFields (p : Position) : String × ℚ × ℚ × Option ℚ :=
  (p.status, p.quantity, p.current_price, p.stop_loss_price)

/-- Two position lists agreeing on `riskFields` produce the same filtered,
per-position risk list. -/
theorem filter_active_map_position_risk (tv : ℚ) {ps1 ps2 : List Position}
    (h : ps1.map riskFields = ps2.map riskFields) :
    (ps1.filter (fun p => p.status = "active")).map (position_risk tv) =
      (ps2.filter (fun p => p.status = "active")).map (position_risk tv) := by
  induction ps1 generalizing ps2 with
  | nil =>
    have h2 : ps2 = [] := List.map_eq_nil_iff.mp h.symm
    subst h2
    rfl
  | cons p t ih =>
    rcases ps2 with _ | ⟨q, t2⟩
    · exact absurd h (by simp)
    · simp only [List.map_cons, List.cons.injEq] at h
      obtain ⟨h1, h2⟩ := h
      have hst : p.status = q.status := congrArg Prod.fst h1
      have hq : p.quantity = q.quantity := congrArg (fun x => x.2.1) h1
      have hcp : p.current_price = q.current_price :=
        congrArg (fun x => x.2.2.1) h1
      have hsl : p.stop_loss_price = q.stop_loss_price :=
        congrArg (fun x => x.2.2.2) h1
      have hpr : position_risk tv p = position_risk tv q := by
        simp [position_risk, position_value, hq, hcp, hsl]
      by_cases ha : p.status = "active"
      · have hpa : decide (p.status = "active") = true := decide_eq_true ha
        have hqa : decide (q.status = "active") = true :=
          decide_eq_true (hst.symm.trans ha)
        simp only [List.filter_cons, hpa, if_true, hqa, List.map_cons, hpr,
          ih h2]
      · have hpa : decide (p.status = "active") = false := decide_eq_false ha
        have hqa : decide (q.status = "active") = false :=
          decide_eq_false (fun hq' => ha (hst.trans hq'))
        simp only [List.filter_cons, hpa, hqa, Bool.false_eq_true, if_false,
          ih h2]

/-- C6.  `check_portfolio_risk` is deterministic in the data it reads:
for one portfolio value and one set of limit parameters, two position
lists that agree on status, quantity, current price and stop-loss price
(even if they differ in other fields such as symbol or entry price)
produce identical `total_risk` and `risk_level`. -/
theorem check_portfolio_risk_deterministic (pf : Portfolio)
    (ps1 ps2 : List Position) (mpr mcr msc : ℚ)
    (h : ps1.map riskFields = ps2.map riskFields) :
    (check_portfolio_risk (some pf) ps1 mpr mcr msc).map
        (fun r => (r.total_risk, r.risk_level)) =
      (check_portfolio_risk (some pf) ps2 mpr mcr msc).map
        (fun r => (r.total_risk, r.risk_level)) := by
  have hmap := filter_active_map_position_risk pf.total_value h
  simp only [check_portfolio_risk]
  rcases h1 : ps1.filter (fun p => p.status = "active") with _ | ⟨x, xs⟩
  · rw [h1] at hmap
    have h2 : ps2.filter (fun p => p.status = "active") = [] :=
      List.map_eq_nil_iff.mp hmap.symm
    rw [h1, h2]
  · rw [h1] at hmap
    rcases h2 : ps2.filter (fun p => p.status = "active") with _ | ⟨y, ys⟩
    · rw [h2] at hmap
      exact absurd hmap (by simp)
    · rw [h2] at hmap
      have hsum : ((x :: xs).map (position_risk pf.total_value)).sum =
          ((y :: ys).map (position_risk pf.total_value)).sum := by
        rw [hmap]
      rw [h1, h2]
      simp only [List.isEmpty_cons, Bool.false_eq_true, if_false]
      by_cases htv : pf.total_value = 0
      · rw [if_pos htv, if_pos htv]
      · rw [if_neg htv, if_neg htv]
        simp only [PyResult.map, hsum]

/-- Witness for C6: the two singleton lists differ in symbol, entry price
and take-profit, but share the risk-relevant fields, so total risk and
risk level agree. -/
theorem check_portfolio_risk_deterministic_witness :
    (check_portfolio_risk (some ⟨1000, 500⟩) [samplePosition] 10 (7 / 10)
          30).map (fun r => (r.total_risk, r.risk_level)) =
      (check_portfolio_risk (some ⟨1000, 500⟩)
          [{ samplePosition with
              symbol := "ETH/USDT", entry_price := 50,
              take_profit_price := some 130 }] 10 (7 / 10) 30).map
        (fun r => (r.total_risk, r.risk_level)) :=
  check_portfolio_risk_deterministic ⟨1000, 500⟩ _ _ 10 (7 / 10) 30
    (by decide)

/-- C10.  With no active positions (whatever inactive positions exist and
whatever the portfolio's value — even one that would divide by zero),
`check_portfolio_risk` succeeds with total risk 0, risk level "low" and
empty warnings and recommendations. -/
theorem check_portfolio_risk_empty (pf : Portfolio)
    (positions : List Position) (mpr mcr msc : ℚ)
    (h : positions.filter (fun p => p.status = "active") = []) :
    check_portfolio_risk (some pf) positions mpr mcr msc =
      .ok { total_risk := 0, risk_level := "low", position_risks := [],
            sector_concentration := [], warnings := [],
            recommendations := [] } := by
  simp only [check_portfolio_risk, h, List.isEmpty_nil, if_true]

/-- Witness for C10: a single closed position and a zero-value portfolio
still yield the fixed low-risk report. -/
theorem check_portfolio_risk_empty_witness :
    check_portfolio_risk (some ⟨0, 0⟩)
        [{ samplePosition with status := "closed" }] 10 (7 / 10) 30 =
      .ok { total_risk := 0, risk_level := "low", position_risks := [],
            sector_concentration := [], warnings := [],
            recommendations := [] } :=
  check_portfolio_risk_empty ⟨0, 0⟩ _ 10 (7 / 10) 30 (by decide)

/-- The per-trade properties C7 asserts of a proposed rebalancing trade. -/
def goodTrade (t : RebalanceTrade) : Prop :=
  10 < |t.value_difference| ∧
    t.trade_type = (if 0 < t.value_difference then "BUY" else "SELL") ∧
    t.quantity = |t.value_difference| / t.current_price

/-- Every trade produced by the rebalancing loop over holdings with
positive prices satisfies `goodTrade`. -/
theorem rebalancing_trades_good (holdings : List Holding) :
    ∀ (total_value : ℚ) (target_allocation : List (String × ℚ))
      (trades : List RebalanceTrade),
      (∀ h ∈ holdings, 0 < h.current_price) →
      rebalancing_trades holdings total_value target_allocation = .ok trades →
      ∀ t ∈ trades, goodTrade t := by
  induction holdings with
  | nil =>
    intro tv ta trades _ h t ht
    injection h with h'
    subst h'
    cases ht
  | cons hd rest ih =>
    intro tv ta trades hp h t ht
    have hprice : 0 < hd.current_price := hp hd (List.mem_cons_self hd rest)
    have hprest : ∀ x ∈ rest, 0 < x.current_price :=
      fun x hx => hp x (List.mem_cons_of_mem hd hx)
    rw [rebalancing_trades] at h
    by_cases h10 :
        10 < |tv * ((ta.lookup hd.symbol).getD 0) - hd.current_value|
    · rw [if_pos h10, if_neg hprice.ne'] at h
      rcases hrec : rebalancing_trades rest tv ta with ts | e
      all_goals rw [hrec] at h
      · simp only [PyResult.map] at h
        injection h with h'
        subst h'
        rcases List.mem_cons.mp ht with rfl | hmem
        · have hiff : (0 < (tv * ((ta.lookup hd.symbol).getD 0)
                - hd.current_value) / hd.current_price) ↔
              (0 < tv * ((ta.lookup hd.symbol).getD 0)
                - hd.current_value) := by
            rw [lt_div_iff₀ hprice, zero_mul]
          refine ⟨h10, ?_, ?_⟩
          · show (if 0 < (tv * ((ta.lookup hd.symbol).getD 0)
                - hd.current_value) / hd.current_price then "BUY"
                else "SELL") = _
            simp only [hiff]
          · show |_ / hd.current_price| = _
            rw [abs_div, abs_of_pos hprice]
        · exact ih tv ta ts hprest hrec t hmem
      · exact PyResult.noConfusion h
    · rw [if_neg h10] at h
      exact ih tv ta trades hprest h t ht

/-- C7.  Under positive holding prices, every trade proposed by
`execute_rebalancing` has `|targetValue − currentValue|` strictly above
the 10-unit minimum notional, direction BUY exactly when that difference
is positive (else SELL), and quantity `|valueDelta| / currentPrice`. -/
theorem execute_rebalancing_trades_good (rebalancing_needed summary_ok : Bool)
    (holdings : List Holding) (total_value : ℚ)
    (target_allocation : List (String × ℚ)) (trades : List RebalanceTrade)
    (hp : ∀ h ∈ holdings, 0 < h.current_price)
    (h : execute_rebalancing rebalancing_needed summary_ok holdings
      total_value target_allocation = .ok trades) :
    ∀ t ∈ trades, 10 < |t.value_difference| ∧
      t.trade_type = (if 0 < t.value_difference then "BUY" else "SELL") ∧
      t.quantity = |t.value_difference| / t.current_price := by
  unfold execute_rebalancing at h
  rcases rebalancing_needed with _ | _
  · simp only [Bool.false_eq_true, not_false_eq_true, if_true] at h
    injection h with h'
    subst h'
    intro t ht
    cases ht
  · simp only [not_true, if_false] at h
    rcases summary_ok with _ | _
    · simp only [Bool.false_eq_true, not_false_eq_true, if_true] at h
      exact PyResult.noConfusion h
    · simp only [not_true, if_false] at h
      exact rebalancing_trades_good holdings total_value target_allocation
        trades hp h

unseal Rat.add Rat.mul Rat.inv Rat.sub in
/-- Witness for C7: one BTC holding worth 650 at price 10 against a 50%
target of a 1000 portfolio proposes SELL of 15 units (value delta −150). -/
theorem execute_rebalancing_trades_good_witness :
    10 < |(⟨"BTC", "binance", "SELL", 15, 10, -150⟩ :
        RebalanceTrade).value_difference| ∧
      (⟨"BTC", "binance", "SELL", 15, 10, -150⟩ :
          RebalanceTrade).trade_type =
        (if 0 < (⟨"BTC", "binance", "SELL", 15, 10, -150⟩ :
            RebalanceTrade).value_difference then "BUY" else "SELL") ∧
      (⟨"BTC", "binance", "SELL", 15, 10, -150⟩ :
          RebalanceTrade).quantity =
        |(⟨"BTC", "binance", "SELL", 15, 10, -150⟩ :
            RebalanceTrade).value_difference| /
          (⟨"BTC", "binance", "SELL", 15, 10, -150⟩ :
              RebalanceTrade).current_price :=
  execute_rebalancing_trades_good true true [⟨"BTC", "binance", 650, 10⟩]
    1000 [("BTC", 1 / 2)] [⟨"BTC", "binance", "SELL", 15, 10, -150⟩]
    (by decide) (by decide) _ (List.mem_singleton.mpr rfl)

/-- An open position of quantity 10 (entry 100, current 125), exercising
`_execute_exit_order`. -/
def openPosition10 : Position :=
  { samplePosition with status := "open", quantity := 10 }

unseal Rat.add Rat.mul Rat.inv Rat.sub in
/-- C8.  An exit order for part of the position (4 of 10) only decrements
the quantity — the status stays `"open"`, it is NOT set to
`"partially_closed"` although `PositionStatus.PARTIALLY_CLOSED` exists in
the models; an exit order for the full (or excess) quantity sets status
`"closed"` and records exit price and time. -/
theorem exit_order_partial_keeps_status_full_closes :
    ((_execute_exit_order openPosition10 4 "market"
          "Take profit executed" 0).1.status = "open" ∧
      (_execute_exit_order openPosition10 4 "market"
          "Take profit executed" 0).1.quantity = 6 ∧
      ("open" : String) ≠ "partially_closed") ∧
    ((_execute_exit_order openPosition10 10 "market"
          "Stop loss triggered" 0).1.status = "closed" ∧
      (_execute_exit_order openPosition10 10 "market"
          "Stop loss triggered" 0).1.exit_price = some 125 ∧
      (_execute_exit_order openPosition10 10 "market"
          "Stop loss triggered" 0).1.exit_time = some 0 ∧
      (_execute_exit_order openPosition10 12 "market"
          "Stop loss triggered" 0).1.status = "closed") := by decide

/-- A list of nonpositive rationals has nonpositive sum. -/
theorem list_sum_nonpos : ∀ {l : List ℚ}, (∀ x ∈ l, x ≤ 0) → l.sum ≤ 0
  | [], _ => by simp
  | x :: t, h => by
    simp only [List.sum_cons]
    have h1 := h x (List.mem_cons_self x t)
    have h2 := list_sum_nonpos (fun y hy => h y (List.mem_cons_of_mem x hy))
    linarith

/-- On a 1000-element list the interpolated 5th percentile sits between
the 49th and 50th order statistics, so some element is at or below it. -/
theorem np_percentile5_le_mem (xs : List ℚ) (hlen : xs.length = 1000) :
    ∃ x ∈ xs, x ≤ np_percentile xs 5 := by
  have hslen : (xs.mergeSort (· ≤ ·)).length = 1000 := by
    rw [List.length_mergeSort]
    exact hlen
  have h49 : 49 < (xs.mergeSort (· ≤ ·)).length := by
    rw [hslen]
    norm_num
  have h50 : 50 < (xs.mergeSort (· ≤ ·)).length := by
    rw [hslen]
    norm_num
  have hab : (xs.mergeSort (· ≤ ·)).get ⟨49, h49⟩
      ≤ (xs.mergeSort (· ≤ ·)).get ⟨50, h50⟩ :=
    List.Sorted.rel_get_of_lt (List.sorted_mergeSort' xs)
      (by simp [Fin.lt_def])
  have hpos : ((((xs.mergeSort (· ≤ ·)).length : ℤ) - 1 : ℤ) : ℚ) * 5 / 100
      = 999 / 20 := by
    rw [hslen]
    norm_num
  have hfloor : ⌊(999 / 20 : ℚ)⌋ = 49 := by norm_num
  have hg49 : (xs.mergeSort (· ≤ ·)).getD 49 0
      = (xs.mergeSort (· ≤ ·)).get ⟨49, h49⟩ := by
    rw [List.getD_eq_getElem _ 0 h49]
    rfl
  have hg50 : (xs.mergeSort (· ≤ ·)).getD 50 0
      = (xs.mergeSort (· ≤ ·)).get ⟨50, h50⟩ := by
    rw [List.getD_eq_getElem _ 0 h50]
    rfl
  refine ⟨(xs.mergeSort (· ≤ ·)).get ⟨49, h49⟩,
    (List.mergeSort_perm xs _).subset (List.get_mem _ _ _), ?_⟩
  simp only [np_percentile, hpos, hfloor]
  have htn : ((49 : ℤ).toNat) = 49 := rfl
  rw [htn, show (49 : ℕ) + 1 = 50 from rfl, hg49, hg50]
  have hfr : (0 : ℚ) ≤ 999 / 20 - ((49 : ℤ) : ℚ) := by norm_num
  have hd : (0 : ℚ) ≤ (xs.mergeSort (· ≤ ·)).get ⟨50, h50⟩
      - (xs.mergeSort (· ≤ ·)).get ⟨49, h49⟩ := by linarith
  have hprod := mul_nonneg hfr hd
  linarith

/-- C9.  For a found portfolio with positive value and a nonempty active
position list, `calculate_portfolio_var` at 95% confidence: the simulation
produces exactly 1000 trial returns, trial `i` being the weighted sum over
the active positions (weight = quantity·price/portfolioValue) of one fresh
draw each from the input stream; the reported VaR is the 5th percentile of
those returns made loss-positive (negated, under the loss hypothesis that
the percentile is ≤ 0), both as a percentage and in portfolio-value units;
the tail at or below the cutoff is never empty, and the reported expected
shortfall is the (negated) mean of that tail. -/
theorem calculate_portfolio_var_spec (pf : Portfolio)
    (positions active : List Position) (draws : ℕ → ℚ)
    (hfil : positions.filter (fun p => p.status = "active") = active)
    (hact : active ≠ []) (htv : 0 < pf.total_value)
    (hvar : np_percentile (simulated_returns active pf.total_value draws) 5
      ≤ 0) :
    ∃ r, calculate_portfolio_var (some pf) positions draws (95 / 100) 1
        = .report r ∧
      (simulated_returns active pf.total_value draws).length = 1000 ∧
      (∀ i < 1000,
        (simulated_returns active pf.total_value draws).getD i 0
          = (active.enum.map (fun jp =>
              jp.2.quantity * jp.2.current_price / pf.total_value *
                draws (i * active.length + jp.1))).sum) ∧
      (simulated_returns active pf.total_value draws).filter
          (fun y => y ≤
            np_percentile (simulated_returns active pf.total_value draws) 5)
        ≠ [] ∧
      r.var_percentage
        = -np_percentile (simulated_returns active pf.total_value draws) 5
            * 100 ∧
      r.var_amount
        = -np_percentile (simulated_returns active pf.total_value draws) 5
            * pf.total_value ∧
      r.expected_shortfall_amount
        = -(((simulated_returns active pf.total_value draws).filter
              (fun y => y ≤ np_percentile
                (simulated_returns active pf.total_value draws) 5)).sum /
            ((simulated_returns active pf.total_value draws).filter
              (fun y => y ≤ np_percentile
                (simulated_returns active pf.total_value draws) 5)).length)
            * pf.total_value := by
  have hq : ((1 : ℚ) - 95 / 100) * 100 = 5 := by norm_num
  have hlen : (simulated_returns active pf.total_value draws).length = 1000 := by
    simp [simulated_returns]
  obtain ⟨x, hx, hxle⟩ :=
    np_percentile5_le_mem (simulated_returns active pf.total_value draws) hlen
  have hne : active.isEmpty = false := by
    cases active with
    | nil => exact absurd rfl hact
    | cons a t => rfl
  have htail_mem : x ∈ (simulated_returns active pf.total_value draws).filter
      (fun y => y ≤
        np_percentile (simulated_returns active pf.total_value draws) 5) :=
    List.mem_filter.mpr ⟨hx, decide_eq_true hxle⟩
  have htail_ne := List.ne_nil_of_mem htail_mem
  have htailE : ((simulated_returns active pf.total_value draws).filter
      (fun y => y ≤
        np_percentile (simulated_returns active pf.total_value draws) 5)).isEmpty
      = false := by
    cases hcase : (simulated_returns active pf.total_value draws).filter
        (fun y => y ≤
          np_percentile (simulated_returns active pf.total_value draws) 5) with
    | nil => exact absurd hcase htail_ne
    | cons a t => rfl
  have hsum : ((simulated_returns active pf.total_value draws).filter
      (fun y => y ≤
        np_percentile (simulated_returns active pf.total_value draws) 5)).sum
      ≤ 0 :=
    list_sum_nonpos (fun y hy =>
      le_trans (of_decide_eq_true (List.mem_filter.mp hy).2) hvar)
  have hes : ((simulated_returns active pf.total_value draws).filter
      (fun y => y ≤
        np_percentile (simulated_returns active pf.total_value draws) 5)).sum /
      (((simulated_returns active pf.total_value draws).filter
        (fun y => y ≤ np_percentile
          (simulated_returns active pf.total_value draws) 5)).length : ℚ)
      ≤ 0 :=
    div_nonpos_iff.mpr (Or.inr ⟨hsum, Nat.cast_nonneg _⟩)
  simp only [calculate_portfolio_var, hfil, hne, Bool.false_eq_true, if_false,
    hq]
  rw [if_neg htv.ne']
  simp only [htailE, Bool.false_eq_true, if_false, np_mean]
  refine ⟨_, rfl, hlen, ?_, htail_ne, ?_, ?_, ?_⟩
  · intro i hi
    have hi' : i < (simulated_returns active pf.total_value draws).length := by
      rw [hlen]
      exact hi
    rw [List.getD_eq_getElem _ 0 hi']
    simp only [simulated_returns, List.getElem_map, List.getElem_range]
    rfl
  · rw [abs_of_nonpos hvar]
  · rw [abs_mul, abs_of_nonpos hvar, abs_of_pos htv]
  · dsimp only []
    rw [abs_mul, abs_of_nonpos hes, abs_of_pos htv]

/-- With an all-zero draw stream every simulated trial return is zero. -/
theorem simulated_returns_zero_draws (active : List Position) (tv : ℚ) :
    simulated_returns active tv (fun _ => 0) = List.replicate 1000 0 := by
  rw [List.eq_replicate_iff]
  constructor
  · simp [simulated_returns]
  · intro b hb
    obtain ⟨i, -, rfl⟩ := List.mem_map.mp hb
    simp [simulated_return]

/-- The interpolated 5th percentile of 1000 zeros is zero. -/
theorem np_percentile_replicate_zero :
    np_percentile (List.replicate 1000 (0 : ℚ)) 5 = 0 := by
  have hms : (List.replicate 1000 (0 : ℚ)).mergeSort (· ≤ ·)
      = List.replicate 1000 0 :=
    List.mergeSort_of_sorted (List.pairwise_replicate.mpr (Or.inr (by simp)))
  have hget : ∀ i : ℕ, (List.replicate 1000 (0 : ℚ)).getD i 0 = 0 := by
    intro i
    rcases lt_or_le i 1000 with h | h
    · rw [List.getD_eq_getElem _ _ (by rw [List.length_replicate]; exact h),
        List.getElem_replicate]
    · rw [List.getD_eq_default _ _ (by rw [List.length_replicate]; exact h)]
  simp only [np_percentile, hms, List.length_replicate, hget]
  ring

/-- Witness for C9: one active position (quantity 1, price 125) in a
100-value portfolio, with the zero draw stream. -/
theorem calculate_portfolio_var_spec_witness :
    ∃ r, calculate_portfolio_var (some ⟨100, 100⟩) [samplePosition]
        (fun _ => 0) (95 / 100) 1 = .report r ∧
      (simulated_returns [samplePosition] 100 (fun _ => 0)).length = 1000 ∧
      (∀ i < 1000,
        (simulated_returns [samplePosition] 100 (fun _ => 0)).getD i 0
          = ([samplePosition].enum.map (fun jp =>
              jp.2.quantity * jp.2.current_price / 100 * (0 : ℚ))).sum) ∧
      (simulated_returns [samplePosition] 100 (fun _ => 0)).filter
          (fun y => y ≤ np_percentile
            (simulated_returns [samplePosition] 100 (fun _ => 0)) 5)
        ≠ [] ∧
      r.var_percentage
        = -np_percentile (simulated_returns [samplePosition] 100
            (fun _ => 0)) 5 * 100 ∧
      r.var_amount
        = -np_percentile (simulated_returns [samplePosition] 100
            (fun _ => 0)) 5 * 100 ∧
      r.expected_shortfall_amount
        = -(((simulated_returns [samplePosition] 100 (fun _ => 0)).filter
              (fun y => y ≤ np_percentile
                (simulated_returns [samplePosition] 100 (fun _ => 0)) 5)).sum /
            ((simulated_returns [samplePosition] 100 (fun _ => 0)).filter
              (fun y => y ≤ np_percentile
                (simulated_returns [samplePosition] 100 (fun _ => 0)) 5)).length)
            * 100 :=
  calculate_portfolio_var_spec ⟨100, 100⟩ [samplePosition] [samplePosition]
    (fun _ => 0) (by decide) (by decide) (by norm_num)
    (by rw [simulated_returns_zero_draws, np_percentile_replicate_zero])

end TradingBot
